import Mathlib

/-!
# Verification of the gemini UI framework core

Shallow embedding of the widget/layout/action core of the repository
(`src/ui/layout.rs`, `src/ui/widget/container.rs`, `src/action/hover.rs`,
`src/action/click.rs`, `src/action/scroll.rs`, `src/ui/dom.rs`,
`src/ui/sync.rs`).  `f64` values are modelled as rationals (`ℚ`): all the
arithmetic the claims exercise (additions, subtractions, multiplications,
divisions, `min`/`max`/`clamp` and comparisons) is exact on the inputs
considered, so `ℚ` is a faithful model away from overflow/rounding, and the
claims' "±1 rounding unit" tolerances are satisfied by exact equalities.
Colors are modelled abstractly as naturals.
-/

namespace Gemini

/-- `Layout` from `src/ui/layout.rs`: position and size of a UI element. -/
structure Layout where
  x : ℚ
  y : ℚ
  w : ℚ
  h : ℚ
  deriving DecidableEq, Repr

instance : Inhabited Layout := ⟨⟨0, 0, 0, 0⟩⟩

/-- `Layout::is_inbounds` (`src/ui/layout.rs` lines 33–38): whether the mouse
position lies in the bounds of this layout, edges included. -/
def Layout.is_inbounds (l : Layout) (mx my : ℚ) : Bool :=
  mx ≥ l.x && mx ≤ l.x + l.w && my ≥ l.y && my ≤ l.y + l.h

/-- `Layout::vertical_center` (`src/ui/layout.rs`). -/
def Layout.vertical_center (l : Layout) (rhs : ℚ) : ℚ :=
  (l.h - rhs) / 2

/-- `Layout::horizontal_center` (`src/ui/layout.rs`). -/
def Layout.horizontal_center (l : Layout) (rhs : ℚ) : ℚ :=
  (l.w - rhs) / 2

/-- `Point` from `src/ui/layout.rs`. -/
structure Point where
  x : ℚ
  y : ℚ
  deriving DecidableEq, Repr

instance : Inhabited Point := ⟨⟨0, 0⟩⟩

/-- `State` from `src/ui/state.rs`: transient visual state of a widget. -/
structure State where
  hovered : Bool
  deriving DecidableEq, Repr

instance : Inhabited State := ⟨⟨false⟩⟩

/-- `Style` from `src/ui/style.rs`, with the color state abstracted to a
natural number (color identity is all the claims need). -/
structure Style where
  color : ℕ
  radius : ℕ
  deriving DecidableEq, Repr

instance : Inhabited Style := ⟨⟨0, 0⟩⟩

/-- `BaseWidget` from `src/ui/widget/mod.rs`: the common attribute record of
every widget (id, layout, draw-time offset, style, transient state; the text
record is omitted as no claim touches it). -/
structure BaseWidget where
  id : ℕ
  layout : Layout
  offset : Point
  style : Style
  state : State
  deriving DecidableEq, Repr

instance : Inhabited BaseWidget := ⟨⟨0, default, default, default, default⟩⟩

/-! ## Grid (`src/ui/layout.rs` lines 89–174)

The source stores the grid dimensions in a `Point` of `f64`s and iterates
`0..size.y as usize` rows by `0..size.x as usize` columns, dividing by the
(integral) `f64` dimensions; we model the dimensions directly as naturals. -/

/-- `Grid` from `src/ui/layout.rs`: `rows = size.y`, `cols = size.x`,
gutter `thickness`.  The cells' layouts are produced by `Grid.resize`. -/
structure Grid where
  rows : ℕ
  cols : ℕ
  thickness : ℚ
  deriving DecidableEq, Repr

/-- Body of the `on_cell` closure inside `Grid::resize`
(`src/ui/layout.rs` lines 126–154): the layout assigned to the cell at
column `px`, row `py` when resizing to `height × width` at origin `(x, y)`. -/
def Grid.cellLayout (g : Grid) (x y height width : ℚ) (px py : ℕ) : Layout :=
  let h_cell_size := height / (g.rows : ℚ)
  let w_cell_size := width / (g.cols : ℚ)
  let buffer_x := (px : ℚ) * w_cell_size
  let buffer_y := (py : ℚ) * h_cell_size
  { x := (if buffer_x > 0 then buffer_x + g.thickness else 0) + x
    y := (if buffer_y > 0 then buffer_y + g.thickness else 0) + y
    w := if buffer_x > 0 then w_cell_size - g.thickness else w_cell_size
    h := if buffer_y > 0 then h_cell_size - g.thickness else h_cell_size }

/-- `Grid::resize` (`src/ui/layout.rs` lines 122–155): the row-major table of
cell layouts after resizing to `height × width` at origin `(x, y)`
(`on_cell` visits rows `0..size.y`, columns `0..size.x`). -/
def Grid.resize (g : Grid) (x y height width : ℚ) : List (List Layout) :=
  (List.range g.rows).map fun py =>
    (List.range g.cols).map fun px => g.cellLayout x y height width px py

/-! ## Hover action (`src/action/hover.rs`) -/

/-- `Hover` from `src/action/hover.rs`: the action's private state
(`hover_color`, the saved `base_color`, and its own `hovered` flag). -/
structure Hover where
  hover_color : ℕ
  base_color : ℕ
  hovered : Bool
  deriving DecidableEq, Repr

/-- `Hover::apply` on a `CursorMoved` event (`src/action/hover.rs`
lines 25–52): updates the hover state from `is_inbounds`, and on a state
transition swaps the widget color (saving the base color on entry, restoring
it on exit) and requests a redraw.  Returns the new action state, the new
widget, and whether `window.request_redraw()` was called. -/
def Hover.step (hv : Hover) (w : BaseWidget) (mx my : ℚ) :
    Hover × BaseWidget × Bool :=
  let previous := hv.hovered
  let now := w.layout.is_inbounds mx my
  let hv' : Hover := { hv with hovered := now }
  if previous ≠ now then
    if now then
      ({ hv' with base_color := w.style.color },
        { w with style := { w.style with color := hv'.hover_color } }, true)
    else
      (hv', { w with style := { w.style with color := hv'.base_color } }, true)
  else
    (hv', w, false)

/-- Iterate `Hover.step` over a list of cursor positions, collecting the
redraw-request flag of every event. -/
def Hover.run (hv : Hover) (w : BaseWidget) :
    List Point → Hover × BaseWidget × List Bool
  | [] => (hv, w, [])
  | p :: ps =>
    let (hv', w', r) := hv.step w p.x p.y
    let (hvf, wf, rs) := Hover.run hv' w' ps
    (hvf, wf, r :: rs)

/-- Iterate enter-then-leave hover cycles: each list element is a pair
(in-bounds position, out-of-bounds position). -/
def Hover.cycles (hv : Hover) (w : BaseWidget) :
    List (Point × Point) → Hover × BaseWidget
  | [] => (hv, w)
  | (pin, pout) :: rest =>
    let (hv1, w1, _) := hv.step w pin.x pin.y
    let (hv2, w2, _) := hv1.step w1 pout.x pout.y
    Hover.cycles hv2 w2 rest

/-! ## Click action (`src/action/click.rs`) -/

/-- `MouseButton` from `src/action/click.rs` lines 20–33. -/
inductive MouseButton where
  | leftButtonRelease
  | leftButton
  | rightButtonRelease
  | rightButton
  | middleButtonRelease
  | middleButton
  | forwardButtonRelease
  | forwardButton
  | backButtonRelease
  | backButton
  | otherButtonReleased (v : ℕ)
  | otherButton (v : ℕ)
  deriving DecidableEq, Repr

/-- `Click<State>` from `src/action/click.rs`: user state plus the
`button_map`.  The map is modelled as a function to `Option`; a registered
callback mutates the user state and the widget (the trigger/event arguments
carry no information the claims need). -/
structure Click (σ : Type) where
  state : σ
  button_map : MouseButton → Option (σ → BaseWidget → σ × BaseWidget)

/-- `Click::apply` on a `MouseInput` event (`src/action/click.rs`
lines 78–125), after the winit button/state pair has been converted to a
`MouseButton`: if the widget is hovered, look up the handler for the button
and invoke it; otherwise (or when no handler is registered) nothing happens.
Returns the new action, the new widget, and which button's callback fired. -/
def Click.applyMouseInput {σ : Type} (c : Click σ) (w : BaseWidget)
    (b : MouseButton) : Click σ × BaseWidget × Option MouseButton :=
  if w.state.hovered then
    match c.button_map b with
    | some handler =>
      let (s', w') := handler c.state w
      ({ c with state := s' }, w', some b)
    | none => (c, w, none)
  else
    (c, w, none)

/-! ## Container flex-grid layout (`src/ui/widget/container.rs`) -/

/-- The configuration fields of `Container` that
`create_flex_grid_layout` reads: its own layout, the `gap` (a `u32` in the
source), and the alignment flags. -/
structure ContainerCfg where
  layout : Layout
  gap : ℕ
  halign : Bool
  valign : Bool
  deriving DecidableEq, Repr

/-- `usize::div_ceil` as used at `container.rs` line 106. -/
def divCeil (n m : ℕ) : ℕ := (n + m - 1) / m

/-- One iteration of the child loop of `Container::create_flex_grid_layout`
(`src/ui/widget/container.rs` lines 114–180): clamp the child's size to the
computed shares, apply alignment, offset by the previous sibling, then snap
to the parent.  `prev` is the previous child's final layout (the source keeps
a reference, so it observes the post-snap values). -/
def flexGridChild (c : ContainerCfg) (cols rows : ℕ)
    (width_share height_share : ℚ) (gaps_factor_row gaps_factor_col : ℕ)
    (prev : Option Layout) (row col : ℕ) (ch : Layout) : Layout :=
  let w' := min ch.w width_share
  let h' := min ch.h height_share
  let x0 := if c.halign then
      c.layout.horizontal_center (w' * (cols : ℚ) + (gaps_factor_row : ℚ))
    else ch.x
  let y0 := if c.valign then
      c.layout.vertical_center (h' * (rows : ℚ) + (gaps_factor_col : ℚ))
    else ch.y
  let x1 := match prev with
    | some p => (col : ℚ) * (p.w + (c.gap : ℚ)) + x0
    | none => x0
  let y1 := match prev with
    | some p => (row : ℚ) * (p.h + (c.gap : ℚ)) + y0
    | none => y0
  { x := x1 + c.layout.x, y := y1 + c.layout.y, w := w', h := h' }

/-- The loop of `create_flex_grid_layout`, threading the enumeration index,
the current row/column and the previous child's final layout. -/
def flexGridGo (c : ContainerCfg) (cols rows : ℕ)
    (width_share height_share : ℚ) (gaps_factor_row gaps_factor_col : ℕ)
    (prev : Option Layout) (idx row col : ℕ) :
    List Layout → List Layout
  | [] => []
  | ch :: rest =>
    let rc : ℕ × ℕ :=
      if idx ≠ 0 then
        if idx % cols = 0 then (row + 1, 0) else (row, col + 1)
      else (row, col)
    let out := flexGridChild c cols rows width_share height_share
      gaps_factor_row gaps_factor_col prev rc.1 rc.2 ch
    out :: flexGridGo c cols rows width_share height_share
      gaps_factor_row gaps_factor_col (some out) (idx + 1) rc.1 rc.2 rest

/-- `Container::create_flex_grid_layout` (`src/ui/widget/container.rs`
lines 98–181).  The source opens with `assert!(cols > 0)`, which panics
before any child layout is mutated; the panic is modelled as `none`.
On success, returns the children's new layouts in order. -/
def createFlexGridLayout (c : ContainerCfg) (cols : ℕ)
    (children : List Layout) : Option (List Layout) :=
  if cols = 0 then none
  else
    let rows := divCeil children.length cols
    let gaps_factor_col := c.gap * (rows - 1)
    let gaps_factor_row := c.gap * (cols - 1)
    let width_share := c.layout.w / (cols : ℚ) - (gaps_factor_row : ℚ)
    let height_share := c.layout.h / (rows : ℚ) - (gaps_factor_col : ℚ)
    some (flexGridGo c cols rows width_share height_share
      gaps_factor_row gaps_factor_col none 0 0 0 children)

/-! ## Scroll action (`src/action/scroll.rs`) -/

/-- `Axis` from `src/action/scroll.rs`. -/
inductive Axis where
  | X
  | Y
  deriving DecidableEq, Repr

/-- `Scroll` from `src/action/scroll.rs` lines 24–34: the currently-selected
scrollbar, the cursor offset recorded within the thumb, the scroll delta and
the maximum scroll range. -/
structure Scroll where
  axis : Option Axis
  cursor_offset : ℚ
  scroll_delta : ℚ
  max_scroll_range : ℚ
  deriving DecidableEq, Repr

instance : Inhabited Scroll := ⟨⟨none, 0, 0, 0⟩⟩

/-- The fields of `Container` that the `Scroll` action reads: its layout, its
scrollbar pair (each a `BaseWidget` thumb plus its `buffer`), and its
children. -/
structure SContainer where
  layout : Layout
  xbar : BaseWidget
  xbuf : ℚ
  ybar : BaseWidget
  ybuf : ℚ
  children : List BaseWidget
  deriving DecidableEq, Repr

/-- `f64::clamp` as used at `scroll.rs` lines 150 and 169 (defined for
`lo ≤ hi`): at most `hi`, at least `lo`. -/
def rclamp (v lo hi : ℚ) : ℚ := max lo (min v hi)

/-- `Scroll::on_pressed` (`src/action/scroll.rs` lines 42–59): whichever
scrollbar thumb is hovered becomes the selected axis (the y check runs
second and overrides), recording the cursor offset within that thumb. -/
def Scroll.on_pressed (s : Scroll) (c : SContainer) (last_cursor : Point) :
    Scroll :=
  let s :=
    if c.xbar.state.hovered then
      { s with axis := some Axis.X,
               cursor_offset := last_cursor.x - c.xbar.layout.x }
    else s
  if c.ybar.state.hovered then
    { s with axis := some Axis.Y,
             cursor_offset := last_cursor.y - c.ybar.layout.y }
  else s

/-- The `total_overflow` computed for the x-axis in `Scroll::compute_scroll`
(`src/action/scroll.rs` lines 73–78): fold of children widths (from
`container_width`) minus `container_width`. -/
def totalOverflowX (c : SContainer) : ℚ :=
  let container_width := c.layout.w + c.layout.x
  let overflow_x :=
    c.children.foldl (fun acc child => max child.layout.w acc) container_width
  overflow_x - container_width

/-- The `total_overflow` computed for the y-axis in `Scroll::compute_scroll`
(`src/action/scroll.rs` lines 96–101): last child's bottom edge minus
`container_height`.  (The source indexes `children[len - 1]`, so it assumes a
nonempty children list; an empty list is given the default widget here.) -/
def totalOverflowY (c : SContainer) : ℚ :=
  let last_child := c.children.getLast?.getD default
  let overflow_y := last_child.layout.y + last_child.layout.h
  let container_height := c.layout.h + c.layout.y
  overflow_y - container_height

/-- `Scroll::compute_scroll` (`src/action/scroll.rs` lines 65–118): sets
`max_scroll_range` and `scroll_delta` for the selected axis.  The source
marks the `axis = None` case `unreachable!` (it is only called when an axis
is selected); that case is modelled as the identity. -/
def Scroll.compute_scroll (s : Scroll) (c : SContainer) : Scroll :=
  match s.axis with
  | some Axis.X =>
    let container_width := c.layout.w + c.layout.x
    let total_overflow := totalOverflowX c
    let scrollbar_buffer := c.xbar.layout.w
    let total_scroll_range := container_width
    let true_scroll_range := total_scroll_range - scrollbar_buffer
    let content_offset := c.layout.x
    let delta := total_overflow / (true_scroll_range - content_offset - c.ybuf)
    { s with max_scroll_range := true_scroll_range, scroll_delta := delta }
  | some Axis.Y =>
    let container_height := c.layout.h + c.layout.y
    let total_overflow := totalOverflowY c
    let scrollbar_buffer := c.ybar.layout.h
    let total_scroll_range := container_height
    let true_scroll_range := total_scroll_range - scrollbar_buffer
    let content_offset := c.layout.y
    let delta := total_overflow / (true_scroll_range - content_offset - c.xbuf)
    { s with max_scroll_range := true_scroll_range, scroll_delta := delta }
  | none => s

/-- `Scroll::on_cursor_movement` (`src/action/scroll.rs` lines 119–139):
sets a thumb's hovered flag to `true` when the cursor is inside its bounds;
it never clears the flag. -/
def Scroll.on_cursor_movement (c : SContainer) (pos : Point) : SContainer :=
  let c :=
    if c.xbar.layout.is_inbounds pos.x pos.y then
      { c with xbar := { c.xbar with state := { c.xbar.state with hovered := true } } }
    else c
  if c.ybar.layout.is_inbounds pos.x pos.y then
    { c with ybar := { c.ybar with state := { c.ybar.state with hovered := true } } }
  else c

/-- `Scroll::on_scroll_movement` (`src/action/scroll.rs` lines 140–184):
move the selected thumb to the cursor (minus the recorded offset), clamped to
`[container origin, max_scroll_range]`, then set every child's draw-time
`offset` along that axis to minus the thumb displacement times
`scroll_delta`.  Children's `layout`s are untouched. -/
def Scroll.on_scroll_movement (s : Scroll) (c : SContainer) (pos : Point) :
    SContainer :=
  match s.axis with
  | some Axis.X =>
    let newx := rclamp (pos.x - s.cursor_offset) c.layout.x s.max_scroll_range
    let shift := (newx - c.layout.x) * s.scroll_delta
    { c with
        xbar := { c.xbar with layout := { c.xbar.layout with x := newx } }
        children := c.children.map fun ch =>
          { ch with offset := { ch.offset with x := -shift } } }
  | some Axis.Y =>
    let newy := rclamp (pos.y - s.cursor_offset) c.layout.y s.max_scroll_range
    let shift := (newy - c.layout.y) * s.scroll_delta
    { c with
        ybar := { c.ybar with layout := { c.ybar.layout with y := newy } }
        children := c.children.map fun ch =>
          { ch with offset := { ch.offset with y := -shift } } }
  | none => c

/-- The window events `Scroll::apply` dispatches on. -/
inductive SEvent where
  | cursorMoved (pos : Point)
  | leftPressed
  | leftReleased
  deriving DecidableEq, Repr

/-- `Scroll::apply` (`src/action/scroll.rs` lines 185–222): cursor moves
drag the selected thumb (or, when no axis is selected, update the thumbs'
hover flags); a left press selects an axis from the hover flags and computes
the scroll parameters; a left release deselects. -/
def Scroll.apply (s : Scroll) (c : SContainer) (last_cursor : Point) :
    SEvent → Scroll × SContainer
  | SEvent.cursorMoved pos =>
    if s.axis.isSome then (s, s.on_scroll_movement c pos)
    else (s, Scroll.on_cursor_movement c pos)
  | SEvent.leftPressed =>
    let s' := s.on_pressed c last_cursor
    (if s'.axis.isSome then s'.compute_scroll c else s', c)
  | SEvent.leftReleased => ({ s with axis := none }, c)

/-! ## DOM user-event handling (`src/ui/dom.rs`, `src/ui/sync.rs`) -/

/-- `Signal` from `src/ui/sync.rs` lines 16–23: the user events carried over
the background→UI channel.  The callback payload is an arbitrary widget
mutation. -/
inductive Signal where
  | update (id : ℕ)
  | callback (id : ℕ) (f : BaseWidget → BaseWidget)

/-- The renderer calls the event loop can issue while handling a user
event (`dirty_clear(x, y, h, w)`, `draw`, `present`). -/
inductive RCall where
  | dirtyClear (x y h w : ℚ)
  | draw (id : ℕ)
  | present
  deriving DecidableEq, Repr

/-- The `Event::UserEvent` arm of the event loop in `DOM::run`
(`src/ui/dom.rs` lines 147–164).  `Signal::Update(id)` looks the widget up
in `nodes_ref` (the `.unwrap()` panic on a missing id is modelled as
`none`), clears only that widget's rectangle, draws it and presents; the
widget table is not mutated.  The source's `match signal` has **no arm for
`Signal::Callback`** (the match is non-exhaustive); handling a callback
signal is modelled as doing nothing — in particular the closure is never
applied. -/
def handleUserEvent (nodes_ref : ℕ → Option BaseWidget) :
    Signal → Option (List RCall × (ℕ → Option BaseWidget))
  | Signal.update id =>
    match nodes_ref id with
    | some w =>
      some ([RCall.dirtyClear w.layout.x w.layout.y w.layout.h w.layout.w,
             RCall.draw id, RCall.present], nodes_ref)
    | none => none
  | Signal.callback _ _ => some ([], nodes_ref)

/-! ## Hover lemmas -/

/-- Entering hover: from an un-hovered state, an in-bounds cursor move saves
the widget's color as the base color, paints the hover color, and requests a
redraw. -/
theorem Hover.step_enter (hv : Hover) (w : BaseWidget) (mx my : ℚ)
    (h0 : hv.hovered = false) (hin : w.layout.is_inbounds mx my = true) :
    hv.step w mx my =
      (⟨hv.hover_color, w.style.color, true⟩,
       ⟨w.id, w.layout, w.offset, ⟨hv.hover_color, w.style.radius⟩, w.state⟩,
       true) := by
  obtain ⟨hc, bc, hvd⟩ := hv
  simp only at h0
  subst h0
  simp [Hover.step, hin]

/-- Leaving hover: from a hovered state, an out-of-bounds cursor move
restores the saved base color and requests a redraw. -/
theorem Hover.step_exit (hv : Hover) (w : BaseWidget) (mx my : ℚ)
    (h1 : hv.hovered = true) (hout : w.layout.is_inbounds mx my = false) :
    hv.step w mx my =
      (⟨hv.hover_color, hv.base_color, false⟩,
       ⟨w.id, w.layout, w.offset, ⟨hv.base_color, w.style.radius⟩, w.state⟩,
       true) := by
  obtain ⟨hc, bc, hvd⟩ := hv
  simp only at h1
  subst h1
  simp [Hover.step, hout]

/-- Staying hovered: an in-bounds cursor move while already hovered mutates
nothing and requests no redraw. -/
theorem Hover.step_stay (hv : Hover) (w : BaseWidget) (mx my : ℚ)
    (h1 : hv.hovered = true) (hin : w.layout.is_inbounds mx my = true) :
    hv.step w mx my = (hv, w, false) := by
  obtain ⟨hc, bc, hvd⟩ := hv
  simp only at h1
  subst h1
  simp [Hover.step, hin]

/-- Runs of in-bounds moves from a hovered state are inert. -/
theorem Hover.run_stay (hv : Hover) (w : BaseWidget) (ps : List Point)
    (h1 : hv.hovered = true)
    (hall : ∀ q ∈ ps, w.layout.is_inbounds q.x q.y = true) :
    Hover.run hv w ps = (hv, w, ps.map fun _ => false) := by
  induction ps with
  | nil => simp [Hover.run]
  | cons q qs ih =>
    have hq := hall q (List.mem_cons_self q qs)
    simp only [Hover.run, Hover.step_stay hv w q.x q.y h1 hq]
    rw [ih fun r hr => hall r (List.mem_cons_of_mem q hr)]
    simp

/-- Claim C5: for a widget with a Hover action and a sequence of
cursor-moved events all inside the widget's bounds, starting un-hovered,
only the first event mutates the widget (it swaps the color to the hover
color) and requests a redraw; every subsequent in-bounds move leaves the
action state and the widget unchanged and requests no redraw. -/
theorem hover_edge_triggered (hv : Hover) (w : BaseWidget) (p : Point)
    (ps : List Point) (h0 : hv.hovered = false)
    (hp : w.layout.is_inbounds p.x p.y = true)
    (hps : ∀ q ∈ ps, w.layout.is_inbounds q.x q.y = true) :
    Hover.run hv w (p :: ps) =
      (⟨hv.hover_color, w.style.color, true⟩,
       ⟨w.id, w.layout, w.offset, ⟨hv.hover_color, w.style.radius⟩, w.state⟩,
       true :: ps.map fun _ => false) := by
  have hrun := Hover.run_stay ⟨hv.hover_color, w.style.color, true⟩
    ⟨w.id, w.layout, w.offset, ⟨hv.hover_color, w.style.radius⟩, w.state⟩
    ps rfl hps
  simp only [Hover.run, Hover.step_enter hv w p.x p.y h0 hp, hrun]

/-- Witness for C5 at a concrete widget and two in-bounds cursor moves. -/
theorem hover_edge_triggered_witness :
    Hover.run ⟨5, 0, false⟩
        ⟨0, ⟨0, 0, 10, 10⟩, ⟨0, 0⟩, ⟨7, 0⟩, ⟨false⟩⟩ [⟨1, 1⟩, ⟨2, 2⟩] =
      (⟨5, 7, true⟩,
       ⟨0, ⟨0, 0, 10, 10⟩, ⟨0, 0⟩, ⟨5, 0⟩, ⟨false⟩⟩,
       [true, false]) := by
  have h := hover_edge_triggered ⟨5, 0, false⟩
    ⟨0, ⟨0, 0, 10, 10⟩, ⟨0, 0⟩, ⟨7, 0⟩, ⟨false⟩⟩ ⟨1, 1⟩ [⟨2, 2⟩] rfl
    (by norm_num [Layout.is_inbounds])
    (by norm_num [Layout.is_inbounds])
  simpa using h

/-- Claim C6: any number of complete enter-then-leave hover cycles restores
exactly the pre-hover widget color; no drift accumulates, and the action
ends un-hovered. -/
theorem hover_color_roundtrip (hv : Hover) (w : BaseWidget)
    (cs : List (Point × Point)) (h0 : hv.hovered = false)
    (hio : ∀ pr ∈ cs, w.layout.is_inbounds pr.1.x pr.1.y = true ∧
        w.layout.is_inbounds pr.2.x pr.2.y = false) :
    (Hover.cycles hv w cs).2.style.color = w.style.color ∧
      (Hover.cycles hv w cs).1.hovered = false := by
  induction cs generalizing hv w with
  | nil => exact ⟨rfl, h0⟩
  | cons pr rest ih =>
    obtain ⟨hin, hout⟩ := hio pr (List.mem_cons_self pr rest)
    obtain ⟨pin, pout⟩ := pr
    have h2 := Hover.step_exit ⟨hv.hover_color, w.style.color, true⟩
      ⟨w.id, w.layout, w.offset, ⟨hv.hover_color, w.style.radius⟩, w.state⟩
      pout.x pout.y rfl hout
    simp only [Hover.cycles, Hover.step_enter hv w pin.x pin.y h0 hin, h2]
    exact ih _ _ rfl fun q hq => hio q (List.mem_cons_of_mem _ hq)

/-- Witness for C6: two concrete enter/leave cycles leave the color at its
initial value. -/
theorem hover_color_roundtrip_witness :
    (Hover.cycles ⟨5, 0, false⟩
        ⟨0, ⟨0, 0, 10, 10⟩, ⟨0, 0⟩, ⟨7, 0⟩, ⟨false⟩⟩
        [(⟨1, 1⟩, ⟨20, 20⟩), (⟨3, 4⟩, ⟨-1, 0⟩)]).2.style.color = 7 ∧
      (Hover.cycles ⟨5, 0, false⟩
        ⟨0, ⟨0, 0, 10, 10⟩, ⟨0, 0⟩, ⟨7, 0⟩, ⟨false⟩⟩
        [(⟨1, 1⟩, ⟨20, 20⟩), (⟨3, 4⟩, ⟨-1, 0⟩)]).1.hovered = false :=
  hover_color_roundtrip ⟨5, 0, false⟩
    ⟨0, ⟨0, 0, 10, 10⟩, ⟨0, 0⟩, ⟨7, 0⟩, ⟨false⟩⟩
    [(⟨1, 1⟩, ⟨20, 20⟩), (⟨3, 4⟩, ⟨-1, 0⟩)] rfl
    (by norm_num [Layout.is_inbounds])

/-! ## Click dispatch -/

/-- Claim C7: a button-down event for button `b` while the widget is hovered
invokes exactly the callback registered for `b` (the fired-callback output
is `none` or `some b`, never another button); when a callback is registered
it is applied to the state and widget; when none is registered the dispatch
is a silent no-op leaving the action and the widget unchanged. -/
theorem click_dispatch_exact {σ : Type} (c : Click σ) (w : BaseWidget)
    (b : MouseButton) (hh : w.state.hovered = true) :
    ((c.applyMouseInput w b).2.2 = none ∨ (c.applyMouseInput w b).2.2 = some b) ∧
    (∀ handler, c.button_map b = some handler →
      c.applyMouseInput w b =
        (⟨(handler c.state w).1, c.button_map⟩, (handler c.state w).2, some b)) ∧
    (c.button_map b = none → c.applyMouseInput w b = (c, w, none)) := by
  refine ⟨?_, ?_, ?_⟩
  · cases hm : c.button_map b with
    | none => simp [Click.applyMouseInput, hh, hm]
    | some handler => simp [Click.applyMouseInput, hh, hm]
  · intro handler hm
    simp [Click.applyMouseInput, hh, hm]
  · intro hm
    simp [Click.applyMouseInput, hh, hm]

/-- Witness for C7: a concrete map with only a left-button callback; a
right-button press while hovered is a silent no-op. -/
theorem click_dispatch_exact_witness :
    Click.applyMouseInput (σ := ℕ)
        ⟨0, fun b => if b = MouseButton.leftButton
            then some (fun s w => (s + 1, w)) else none⟩
        ⟨0, ⟨0, 0, 10, 10⟩, ⟨0, 0⟩, ⟨7, 0⟩, ⟨true⟩⟩
        MouseButton.rightButton =
      (⟨0, fun b => if b = MouseButton.leftButton
          then some (fun s w => (s + 1, w)) else none⟩,
       ⟨0, ⟨0, 0, 10, 10⟩, ⟨0, 0⟩, ⟨7, 0⟩, ⟨true⟩⟩,
       none) :=
  (click_dispatch_exact
    ⟨0, fun b => if b = MouseButton.leftButton
        then some (fun s w => (s + 1, w)) else none⟩
    ⟨0, ⟨0, 0, 10, 10⟩, ⟨0, 0⟩, ⟨7, 0⟩, ⟨true⟩⟩
    MouseButton.rightButton rfl).2.2 rfl

/-! ## Hit-testing and scroll offsets -/

/-- Claim C8: `is_inbounds` holds exactly on the closed layout rectangle
(edges included), and its result is a function of the layout only: a
scrollbar drag (`on_scroll_movement`), which writes the children's
draw-time `offset` but not their `layout`, leaves every child's hit-test
result at every cursor position unchanged. -/
theorem is_inbounds_spec_offset_independent (l : Layout) (mx my : ℚ)
    (s : Scroll) (c : SContainer) (pos : Point) :
    (l.is_inbounds mx my = true ↔
      (l.x ≤ mx ∧ mx ≤ l.x + l.w ∧ l.y ≤ my ∧ my ≤ l.y + l.h)) ∧
    ((s.on_scroll_movement c pos).children.map
        (fun ch => ch.layout.is_inbounds mx my) =
      c.children.map fun ch => ch.layout.is_inbounds mx my) := by
  constructor
  · simp [Layout.is_inbounds, and_assoc]
  · rcases s with ⟨ax, co, sd, msr⟩
    rcases ax with _ | ax
    · rfl
    · cases ax <;> simp [Scroll.on_scroll_movement]

/-- Witness for C8: concrete instantiation for an edge point of a layout and
a concrete drag that shifts a child's offset. -/
theorem is_inbounds_spec_offset_independent_witness :
    ((Layout.mk 0 0 10 10).is_inbounds 10 0 = true ↔
      ((0:ℚ) ≤ 10 ∧ (10:ℚ) ≤ 0 + 10 ∧ (0:ℚ) ≤ 0 ∧ (0:ℚ) ≤ 0 + 10)) ∧
    ((Scroll.on_scroll_movement ⟨some Axis.X, 0, 1, 100⟩
        ⟨⟨0, 0, 105, 50⟩, default, 5, default, 5,
          [⟨3, ⟨0, 0, 200, 40⟩, ⟨0, 0⟩, ⟨0, 0⟩, ⟨false⟩⟩]⟩
        ⟨60, 47⟩).children.map
          (fun ch => ch.layout.is_inbounds 10 0) =
      ([⟨3, ⟨0, 0, 200, 40⟩, ⟨0, 0⟩, ⟨0, 0⟩, ⟨false⟩⟩] :
          List BaseWidget).map fun ch => ch.layout.is_inbounds 10 0) :=
  is_inbounds_spec_offset_independent ⟨0, 0, 10, 10⟩ 10 0
    ⟨some Axis.X, 0, 1, 100⟩
    ⟨⟨0, 0, 105, 50⟩, default, 5, default, 5,
      [⟨3, ⟨0, 0, 200, 40⟩, ⟨0, 0⟩, ⟨0, 0⟩, ⟨false⟩⟩]⟩
    ⟨60, 47⟩

/-! ## Flex-grid precondition -/

/-- Claim C9: resolving a flex-grid layout with zero columns hits the
`assert!(cols > 0)` before any child layout is mutated (modelled by the
`none` result, which carries no updated children), and for every positive
column count the assertion never fires (the layout pass returns a result).
-/
theorem flex_grid_zero_cols_fatal (c : ContainerCfg) (children : List Layout) :
    createFlexGridLayout c 0 children = none ∧
      ∀ cols : ℕ, 0 < cols → (createFlexGridLayout c cols children).isSome = true := by
  constructor
  · simp [createFlexGridLayout]
  · intro cols hcols
    simp [createFlexGridLayout, Nat.pos_iff_ne_zero.mp hcols]

/-- Witness for C9 at a concrete container: one column succeeds, zero
columns is the modelled panic. -/
theorem flex_grid_zero_cols_fatal_witness :
    createFlexGridLayout ⟨⟨0, 0, 100, 100⟩, 2, false, false⟩ 0
        [⟨0, 0, 10, 10⟩] = none ∧
      (createFlexGridLayout ⟨⟨0, 0, 100, 100⟩, 2, false, false⟩ 1
        [⟨0, 0, 10, 10⟩]).isSome = true :=
  ⟨(flex_grid_zero_cols_fatal ⟨⟨0, 0, 100, 100⟩, 2, false, false⟩
      [⟨0, 0, 10, 10⟩]).1,
   (flex_grid_zero_cols_fatal ⟨⟨0, 0, 100, 100⟩, 2, false, false⟩
      [⟨0, 0, 10, 10⟩]).2 1 Nat.one_pos⟩

/-! ## DOM user-event handling -/

/-- Claim C2 (code bug): the event loop's user-event match in `DOM::run`
handles `Signal::Update(id)` as the claim says — widget looked up by id,
its rectangle (and only it) dirty-cleared, the widget drawn, then a present
— but it has **no arm for `Signal::Callback`**: delivering a callback signal
applies no closure and issues no renderer call, even when the closure would
have changed the widget.  Evaluated here at a concrete routing table and a
color-setting closure. -/
theorem dom_callback_unhandled :
    (handleUserEvent
        (fun i => if i = 0 then some ⟨0, ⟨1, 2, 30, 40⟩, ⟨0, 0⟩, ⟨7, 0⟩, ⟨false⟩⟩ else none)
        (Signal.callback 0 fun w : BaseWidget =>
          (⟨w.id, w.layout, w.offset, ⟨5, w.style.radius⟩, w.state⟩ : BaseWidget)) =
      some ([], fun i => if i = 0 then some ⟨0, ⟨1, 2, 30, 40⟩, ⟨0, 0⟩, ⟨7, 0⟩, ⟨false⟩⟩ else none)) ∧
    ((fun w : BaseWidget =>
          (⟨w.id, w.layout, w.offset, ⟨5, w.style.radius⟩, w.state⟩ : BaseWidget))
        ⟨0, ⟨1, 2, 30, 40⟩, ⟨0, 0⟩, ⟨7, 0⟩, ⟨false⟩⟩ ≠
      ⟨0, ⟨1, 2, 30, 40⟩, ⟨0, 0⟩, ⟨7, 0⟩, ⟨false⟩⟩) ∧
    (handleUserEvent
        (fun i => if i = 0 then some ⟨0, ⟨1, 2, 30, 40⟩, ⟨0, 0⟩, ⟨7, 0⟩, ⟨false⟩⟩ else none)
        (Signal.update 0) =
      some ([RCall.dirtyClear 1 2 40 30, RCall.draw 0, RCall.present],
        fun i => if i = 0 then some ⟨0, ⟨1, 2, 30, 40⟩, ⟨0, 0⟩, ⟨7, 0⟩, ⟨false⟩⟩ else none)) := by
  refine ⟨rfl, ?_, rfl⟩
  intro h
  simpa using congrArg (fun w => w.style.color) h

/-! ## Scroll hover latch -/

/-- Claim C10: while no axis is selected, a cursor move sets a scrollbar
thumb's hovered flag when the cursor is inside its bounds but never clears
it when the cursor is outside (the flag is latched); consequently a later
left press selects that thumb's axis — and begins a drag — regardless of
where the cursor is at press time. -/
theorem scroll_hover_latch (s : Scroll) (c : SContainer) (lc p : Point)
    (hax : s.axis = none) :
    (c.xbar.layout.is_inbounds p.x p.y = true →
      ((s.apply c lc (SEvent.cursorMoved p)).2).xbar.state.hovered = true) ∧
    (c.xbar.state.hovered = true →
      ((s.apply c lc (SEvent.cursorMoved p)).2).xbar.state.hovered = true) ∧
    (c.ybar.layout.is_inbounds p.x p.y = true →
      ((s.apply c lc (SEvent.cursorMoved p)).2).ybar.state.hovered = true) ∧
    (c.ybar.state.hovered = true →
      ((s.apply c lc (SEvent.cursorMoved p)).2).ybar.state.hovered = true) ∧
    (c.xbar.state.hovered = true → c.ybar.state.hovered = false →
      ((s.apply c lc SEvent.leftPressed).1).axis = some Axis.X) := by
  have happ : s.apply c lc (SEvent.cursorMoved p) =
      (s, Scroll.on_cursor_movement c p) := by
    simp [Scroll.apply, hax]
  rw [happ]
  refine ⟨?_, ?_, ?_, ?_, ?_⟩
  · intro hx
    by_cases hy : c.ybar.layout.is_inbounds p.x p.y <;>
      simp [Scroll.on_cursor_movement, hx, hy]
  · intro hxh
    by_cases hx : c.xbar.layout.is_inbounds p.x p.y <;>
      by_cases hy : c.ybar.layout.is_inbounds p.x p.y <;>
        simp [Scroll.on_cursor_movement, hx, hy, hxh]
  · intro hy
    by_cases hx : c.xbar.layout.is_inbounds p.x p.y <;>
      simp [Scroll.on_cursor_movement, hx, hy]
  · intro hyh
    by_cases hx : c.xbar.layout.is_inbounds p.x p.y <;>
      by_cases hy : c.ybar.layout.is_inbounds p.x p.y <;>
        simp [Scroll.on_cursor_movement, hx, hy, hyh]
  · intro hxh hyh
    simp [Scroll.apply, Scroll.on_pressed, Scroll.compute_scroll, hxh, hyh]

/-- Witness for C10: a concrete container whose x thumb was hovered once;
a cursor move far away leaves the flag set, and a press there still selects
the x axis. -/
theorem scroll_hover_latch_witness :
    ((Scroll.apply ⟨none, 0, 0, 0⟩
        ⟨⟨0, 0, 105, 50⟩, ⟨1, ⟨0, 45, 5, 10⟩, ⟨0, 0⟩, ⟨0, 0⟩, ⟨true⟩⟩, 5,
          ⟨2, ⟨100, 0, 10, 40⟩, ⟨0, 0⟩, ⟨0, 0⟩, ⟨false⟩⟩, 5, []⟩
        ⟨500, 500⟩ (SEvent.cursorMoved ⟨500, 500⟩)).2).xbar.state.hovered = true ∧
    ((Scroll.apply ⟨none, 0, 0, 0⟩
        ⟨⟨0, 0, 105, 50⟩, ⟨1, ⟨0, 45, 5, 10⟩, ⟨0, 0⟩, ⟨0, 0⟩, ⟨true⟩⟩, 5,
          ⟨2, ⟨100, 0, 10, 40⟩, ⟨0, 0⟩, ⟨0, 0⟩, ⟨false⟩⟩, 5, []⟩
        ⟨500, 500⟩ SEvent.leftPressed).1).axis = some Axis.X := by
  have h := scroll_hover_latch ⟨none, 0, 0, 0⟩
    ⟨⟨0, 0, 105, 50⟩, ⟨1, ⟨0, 45, 5, 10⟩, ⟨0, 0⟩, ⟨0, 0⟩, ⟨true⟩⟩, 5,
      ⟨2, ⟨100, 0, 10, 40⟩, ⟨0, 0⟩, ⟨0, 0⟩, ⟨false⟩⟩, 5, []⟩
    ⟨500, 500⟩ ⟨500, 500⟩ rfl
  exact ⟨h.2.1 rfl, h.2.2.2.2 rfl rfl⟩

/-! ## Flex-grid scenario -/

/-- Claim C3: a container with `FlexLayout::Grid(4)`, gap 5, own layout
640×320, and five children each 100×50: after the flex-grid pass children
0–3 lie in row 0 at x = 0, 105, 210, 315 (y = 0) and child 4 starts row 1 at
x = 0, y = 55 = row-0 height + gap, with sizes clamped to the computed
shares (145 and 155, so 100×50 survive). -/
theorem flex_grid_scenario :
    createFlexGridLayout ⟨⟨0, 0, 640, 320⟩, 5, false, false⟩ 4
        (List.replicate 5 ⟨0, 0, 100, 50⟩) =
      some [⟨0, 0, 100, 50⟩, ⟨105, 0, 100, 50⟩, ⟨210, 0, 100, 50⟩,
            ⟨315, 0, 100, 50⟩, ⟨0, 55, 100, 50⟩] := by
  norm_num [createFlexGridLayout, flexGridGo, flexGridChild, divCeil,
    Layout.horizontal_center, Layout.vertical_center, min_def,
    List.replicate]

/-! ## Grid tiling -/

/-- Sum of the cell sizes produced by `Grid.cellLayout` along one axis:
the first cell keeps the full share `c`, every later cell gives up one
gutter `t`. -/
theorem sum_cell_shares (n : ℕ) (c t : ℚ) (hn : 1 ≤ n) (hc : 0 < c) :
    ((List.range n).map fun i : ℕ => if (i : ℚ) * c > 0 then c - t else c).sum =
      (n : ℚ) * c - ((n : ℚ) - 1) * t := by
  induction n, hn using Nat.le_induction with
  | base =>
    rw [List.range_succ, List.range_zero]
    norm_num
  | succ n hn ih =>
    have hpos : ((n : ℚ)) * c > 0 :=
      mul_pos (by exact_mod_cast Nat.lt_of_lt_of_le Nat.zero_lt_one hn) hc
    rw [List.range_succ, List.map_append, List.sum_append]
    simp only [List.map_cons, List.map_nil, List.sum_cons, List.sum_nil,
      if_pos hpos]
    rw [ih]
    push_cast
    ring

/-- Claim C1 (amended with `0 < width` and `0 < height`): for a grid with at
least one row and one column resized to a positive `height × width`, in each
row the cell widths sum to `width - (cols-1)*thickness` exactly — so adding
the `(cols-1)` gutters reconstitutes `width` — and in each column the cell
heights plus `(rows-1)` gutters reconstitute `height`. -/
theorem grid_tiling (g : Grid) (x y height width : ℚ)
    (hr : 1 ≤ g.rows) (hc : 1 ≤ g.cols) (hw : 0 < width) (hh : 0 < height) :
    (∀ row ∈ g.resize x y height width,
      (row.map Layout.w).sum + ((g.cols : ℚ) - 1) * g.thickness = width) ∧
    (∀ px : ℕ,
      ((List.range g.rows).map fun py =>
          (g.cellLayout x y height width px py).h).sum +
        ((g.rows : ℚ) - 1) * g.thickness = height) := by
  have hcq : (0 : ℚ) < (g.cols : ℚ) := by exact_mod_cast hc
  have hrq : (0 : ℚ) < (g.rows : ℚ) := by exact_mod_cast hr
  constructor
  · intro row hrow
    rw [Grid.resize, List.mem_map] at hrow
    obtain ⟨py, _, rfl⟩ := hrow
    rw [List.map_map]
    have hshare : (0 : ℚ) < width / (g.cols : ℚ) := div_pos hw hcq
    have := sum_cell_shares g.cols (width / (g.cols : ℚ)) g.thickness hc hshare
    calc ((List.range g.cols).map
            (Layout.w ∘ fun px => g.cellLayout x y height width px py)).sum
          + ((g.cols : ℚ) - 1) * g.thickness
        = ((List.range g.cols).map fun i : ℕ =>
            if (i : ℚ) * (width / (g.cols : ℚ)) > 0
            then width / (g.cols : ℚ) - g.thickness
            else width / (g.cols : ℚ)).sum
          + ((g.cols : ℚ) - 1) * g.thickness := rfl
      _ = (g.cols : ℚ) * (width / (g.cols : ℚ))
          - ((g.cols : ℚ) - 1) * g.thickness
          + ((g.cols : ℚ) - 1) * g.thickness := by rw [this]
      _ = width := by field_simp
  · intro px
    have hshare : (0 : ℚ) < height / (g.rows : ℚ) := div_pos hh hrq
    have := sum_cell_shares g.rows (height / (g.rows : ℚ)) g.thickness hr hshare
    calc ((List.range g.rows).map fun py =>
            (g.cellLayout x y height width px py).h).sum
          + ((g.rows : ℚ) - 1) * g.thickness
        = ((List.range g.rows).map fun i : ℕ =>
            if (i : ℚ) * (height / (g.rows : ℚ)) > 0
            then height / (g.rows : ℚ) - g.thickness
            else height / (g.rows : ℚ)).sum
          + ((g.rows : ℚ) - 1) * g.thickness := rfl
      _ = (g.rows : ℚ) * (height / (g.rows : ℚ))
          - ((g.rows : ℚ) - 1) * g.thickness
          + ((g.rows : ℚ) - 1) * g.thickness := by rw [this]
      _ = height := by field_simp

/-- Witness for C1 at a 2×2 grid with gutter 1 resized to 10×10: the first
row's widths plus the single gutter give exactly 10. -/
theorem grid_tiling_witness :
    ((((Grid.mk 2 2 1).resize 0 0 10 10).headD []).map Layout.w).sum +
        (((Grid.mk 2 2 1).cols : ℚ) - 1) * (Grid.mk 2 2 1).thickness = 10 :=
  (grid_tiling ⟨2, 2, 1⟩ 0 0 10 10 (by norm_num) (by norm_num)
      (by norm_num) (by norm_num)).1 _
    (by norm_num [Grid.resize, List.range_succ])

/-- Counterexample refuting C1 as stated for every width: at a 1×2 grid with
thickness 2 resized to width 0 (height 1), both cells get width 0
(`buffer_x = px * 0` is never positive, so no cell gives up a gutter), and
the row's widths plus the `(cols-1)` gutters total 2, missing the container
width 0 by more than one unit. -/
theorem grid_tiling_counterexample :
    ((((Grid.mk 1 2 2).resize 0 0 1 0).headD []).map Layout.w).sum +
        (((Grid.mk 1 2 2).cols : ℚ) - 1) * (Grid.mk 1 2 2).thickness = 2 ∧
      ¬(|(2 : ℚ) - 0| ≤ 1) := by
  constructor
  · norm_num [Grid.resize, Grid.cellLayout, List.range_succ]
  · norm_num

/-! ## Scroll clamping -/

/-- Claim C4 (amended): after a drag cursor-move on the selected axis the
thumb position stays within the clamp bounds
`[container origin, max_scroll_range]` (given that these are ordered, as
`f64::clamp` requires), and — with the computed `scroll_delta`
nonnegative — every child's render-offset magnitude is bounded by
`(max_scroll_range - container origin) * scroll_delta`.  This bound, not the
total child overflow, is what the code enforces: it exceeds the overflow
whenever the other scrollbar's buffer is positive. -/
theorem scroll_clamped (s : Scroll) (c : SContainer) (pos : Point)
    (hd : 0 ≤ s.scroll_delta) :
    (s.axis = some Axis.X → c.layout.x ≤ s.max_scroll_range →
      (c.layout.x ≤ (s.on_scroll_movement c pos).xbar.layout.x ∧
       (s.on_scroll_movement c pos).xbar.layout.x ≤ s.max_scroll_range ∧
       ∀ ch ∈ (s.on_scroll_movement c pos).children,
         |ch.offset.x| ≤ (s.max_scroll_range - c.layout.x) * s.scroll_delta)) ∧
    (s.axis = some Axis.Y → c.layout.y ≤ s.max_scroll_range →
      (c.layout.y ≤ (s.on_scroll_movement c pos).ybar.layout.y ∧
       (s.on_scroll_movement c pos).ybar.layout.y ≤ s.max_scroll_range ∧
       ∀ ch ∈ (s.on_scroll_movement c pos).children,
         |ch.offset.y| ≤ (s.max_scroll_range - c.layout.y) * s.scroll_delta)) := by
  constructor
  · intro hax hlo
    simp only [Scroll.on_scroll_movement, hax, rclamp]
    refine ⟨le_max_left _ _, max_le hlo (min_le_right _ _), ?_⟩
    intro ch hch
    simp only [List.mem_map] at hch
    obtain ⟨ch0, _, rfl⟩ := hch
    simp only
    rw [abs_neg, abs_of_nonneg (mul_nonneg (sub_nonneg.mpr (le_max_left _ _)) hd)]
    exact mul_le_mul_of_nonneg_right
      (sub_le_sub_right (max_le hlo (min_le_right _ _)) _) hd
  · intro hax hlo
    simp only [Scroll.on_scroll_movement, hax, rclamp]
    refine ⟨le_max_left _ _, max_le hlo (min_le_right _ _), ?_⟩
    intro ch hch
    simp only [List.mem_map] at hch
    obtain ⟨ch0, _, rfl⟩ := hch
    simp only
    rw [abs_neg, abs_of_nonneg (mul_nonneg (sub_nonneg.mpr (le_max_left _ _)) hd)]
    exact mul_le_mul_of_nonneg_right
      (sub_le_sub_right (max_le hlo (min_le_right _ _)) _) hd

/-- Test fixture for C4: a container 105 wide at the origin, its x thumb
(width 5) hovered at the origin, the y scrollbar's buffer 5, one child 200
wide.  The total x overflow is `max 200 105 - 105 = 95`. -/
def scrollC4 : SContainer :=
  ⟨⟨0, 0, 105, 50⟩, ⟨1, ⟨0, 45, 5, 10⟩, ⟨0, 0⟩, ⟨0, 0⟩, ⟨true⟩⟩, 5,
    ⟨2, ⟨100, 0, 10, 40⟩, ⟨0, 0⟩, ⟨0, 0⟩, ⟨false⟩⟩, 5,
    [⟨3, ⟨0, 0, 200, 40⟩, ⟨0, 0⟩, ⟨0, 0⟩, ⟨false⟩⟩]⟩

/-- The scroll state after a left press on `scrollC4` with the cursor at the
origin: x axis selected, `cursor_offset = 0`,
`scroll_delta = 95 / (100 - 0 - 5) = 1`, `max_scroll_range = 100`. -/
def scrollS4 : Scroll :=
  (Scroll.apply ⟨none, 0, 0, 0⟩ scrollC4 ⟨0, 0⟩ SEvent.leftPressed).1

/-- Counterexample refuting C4 as stated: dragging the thumb of `scrollC4`
to the end of its track sets the child's render offset to `-100`, whose
magnitude exceeds the computed total child overflow `95` (the delta's
denominator subtracts the other scrollbar's 5-unit buffer, inflating the
shift). -/
theorem scroll_overflow_counterexample :
    ((scrollS4.on_scroll_movement scrollC4 ⟨100, 47⟩).children.map
      fun ch => ch.offset.x) = [-100] ∧
    totalOverflowX scrollC4 = 95 ∧ ¬(|(-100 : ℚ)| ≤ 95) := by
  refine ⟨?_, ?_, by norm_num⟩
  · norm_num [scrollS4, scrollC4, Scroll.apply, Scroll.on_pressed,
      Scroll.compute_scroll, totalOverflowX, Scroll.on_scroll_movement, rclamp,
      min_def, max_def]
  · norm_num [scrollC4, totalOverflowX]

/-- Witness for the amended C4: the end-of-track drag on `scrollC4` leaves
the thumb inside the clamp bounds. -/
theorem scroll_clamped_witness :
    scrollC4.layout.x ≤
        (scrollS4.on_scroll_movement scrollC4 ⟨100, 47⟩).xbar.layout.x ∧
      (scrollS4.on_scroll_movement scrollC4 ⟨100, 47⟩).xbar.layout.x ≤
        scrollS4.max_scroll_range := by
  have h := (scroll_clamped scrollS4 scrollC4 ⟨100, 47⟩
    (by norm_num [scrollS4, scrollC4, Scroll.apply, Scroll.on_pressed,
      Scroll.compute_scroll, totalOverflowX])).1
    (by norm_num [scrollS4, scrollC4, Scroll.apply, Scroll.on_pressed,
      Scroll.compute_scroll, totalOverflowX])
    (by norm_num [scrollS4, scrollC4, Scroll.apply, Scroll.on_pressed,
      Scroll.compute_scroll, totalOverflowX])
  exact ⟨h.1, h.2.1⟩

end Gemini
